import Mathlib

/-!
Verification of `example_text_to_image.py`, a client script for the Fooocus
text-to-image HTTP API.  The script is embedded shallowly: every network or
filesystem interaction is recorded as an `Effect` in a trace, and the
responses the outside world would give are supplied by a `World` oracle.
Python exceptions that the script lets escape are modelled by `PyError`.
-/

namespace LocalViz

/-- JSON values, as produced by `response.json()` and sent by `requests.post`.
Numbers are modelled as rationals (`2.0`, `4.0`, `-1` all embed exactly). -/
inductive Json where
  | null : Json
  | bool : Bool → Json
  | num : Rat → Json
  | str : String → Json
  | arr : List Json → Json
  | obj : List (String × Json) → Json

/-- Python truthiness of a JSON value (`if response.get("job_id"):` etc.). -/
def truthy : Json → Bool
  | Json.null => false
  | Json.bool b => b
  | Json.num q => decide (q ≠ 0)
  | Json.str s => !s.isEmpty
  | Json.arr xs => !xs.isEmpty
  | Json.obj kvs => !kvs.isEmpty

mutual

/-- Serialization of a JSON value, standing in for `json.dumps`. -/
def jsonSerialize : Json → String
  | Json.null => "null"
  | Json.bool true => "true"
  | Json.bool false => "false"
  | Json.num q => toString q
  | Json.str s => "\"" ++ s ++ "\""
  | Json.arr xs => "[" ++ jsonSerializeList xs ++ "]"
  | Json.obj kvs => "\x7b" ++ jsonSerializeObj kvs ++ "\x7d"

def jsonSerializeList : List Json → String
  | [] => ""
  | [x] => jsonSerialize x
  | x :: y :: xs => jsonSerialize x ++ ", " ++ jsonSerializeList (y :: xs)

def jsonSerializeObj : List (String × Json) → String
  | [] => ""
  | [(k, v)] => "\"" ++ k ++ "\": " ++ jsonSerialize v
  | (k, v) :: kv :: kvs =>
      "\"" ++ k ++ "\": " ++ jsonSerialize v ++ ", " ++ jsonSerializeObj (kv :: kvs)

end

/-- `json.dumps(j, indent=2)`: the exact layout is irrelevant to the claims,
only that the serialized response is what gets printed. -/
def pyJsonDumps (j : Json) : String := jsonSerialize j

/-- Python `str()` of a JSON value, as interpolated by f-strings.  Scalars
follow Python exactly; composite values are rendered by the serializer. -/
def pyStr : Json → String
  | Json.str s => s
  | Json.null => "None"
  | Json.bool true => "True"
  | Json.bool false => "False"
  | j => jsonSerialize j

/-- Outcome of an HTTP request whose body the script decodes with `.json()`:
the transport may fail (`requests` raises), or a response arrives whose body
either is valid JSON or is not (`.json()` raises). The script never looks at
the status code of these responses. -/
inductive JsonResp where
  | transportError : JsonResp
  | badJson : Nat → JsonResp
  | ok : Nat → Json → JsonResp

/-- Outcome of the raw image download `requests.get(result["url"])`:
transport failure, or a status code plus body bytes. -/
inductive RawResp where
  | transportError : RawResp
  | ok : Nat → List Nat → RawResp

/-- The oracle supplying every response of the outside world.  `now n` is the
string `datetime.now().strftime("%Y%m%d_%H%M%S")` returns on its `n`-th call. -/
structure World where
  post : String → Json → JsonResp
  get : String → List (String × String) → JsonResp
  getRaw : String → RawResp
  now : Nat → String

/-- One observable action of the script, in program order. -/
inductive Effect where
  | print : String → Effect
  | httpPost : String → Json → Effect
  | httpGet : String → List (String × String) → Effect
  | httpGetRaw : String → Effect
  | makeDirs : String → Bool → Effect
  | writeFile : String → List Nat → Effect

/-- A Python exception escaping the script. -/
inductive PyError where
  | transport : PyError
  | jsonDecode : PyError
  | attrError : PyError
  | typeError : PyError
  deriving DecidableEq

def API_URL : String := "http://127.0.0.1:8888"

def textToImageUrl : String := API_URL ++ "/v1/generation/text-to-image"

def queryJobUrl : String := API_URL ++ "/v1/generation/query-job"

/-- The `params` dict built by `text_to_image` (source lines 29-41). -/
def requestParams (prompt negative_prompt : String) (style_selections : List String)
    (async_process : Bool) : Json :=
  Json.obj [
    ("prompt", Json.str prompt),
    ("negative_prompt", Json.str negative_prompt),
    ("style_selections", Json.arr (style_selections.map Json.str)),
    ("performance_selection", Json.str "Quality"),
    ("aspect_ratios_selection", Json.str "1152*896"),
    ("image_number", Json.num 1),
    ("image_seed", Json.num (-1)),
    ("sharpness", Json.num 2),
    ("guidance_scale", Json.num 4),
    ("async_process", Json.bool async_process),
    ("save_extension", Json.str "png")]

/-- `text_to_image(prompt, negative_prompt="", style_selections=None,
async_process=True)`: builds `params`, POSTs it, returns `response.json()`.
`style_selections = none` models passing Python `None` (or omitting it). -/
def text_to_image (w : World) (prompt : String) (negative_prompt : String := "")
    (style_selections : Option (List String) := none) (async_process : Bool := true) :
    List Effect × Except PyError Json :=
  let styles := style_selections.getD ["Fooocus V2"]
  let params := requestParams prompt negative_prompt styles async_process
  ([Effect.httpPost textToImageUrl params],
    match w.post textToImageUrl params with
    | JsonResp.transportError => Except.error PyError.transport
    | JsonResp.badJson _ => Except.error PyError.jsonDecode
    | JsonResp.ok _ body => Except.ok body)

/-- `check_job_status(job_id)`: GETs the query-job endpoint with `job_id` as
the sole query parameter and returns `response.json()`. -/
def check_job_status (w : World) (job_id : String) : List Effect × Except PyError Json :=
  ([Effect.httpGet queryJobUrl [("job_id", job_id)]],
    match w.get queryJobUrl [("job_id", job_id)] with
    | JsonResp.transportError => Except.error PyError.transport
    | JsonResp.badJson _ => Except.error PyError.jsonDecode
    | JsonResp.ok _ body => Except.ok body)

/-- Python `d.get(k)`: a lookup on a dict, an `AttributeError` on anything
else. -/
def pyGet (j : Json) (k : String) : Except PyError (Option Json) :=
  match j with
  | Json.obj kvs => Except.ok (kvs.lookup k)
  | _ => Except.error PyError.attrError

/-- Python `==` between an optional JSON value and a string literal, as in
`job_status.get("job_stage") == "PENDING"`: true exactly when the value is
that string (`None` and non-string values compare unequal). -/
def pyEqStr : Option Json → String → Bool
  | some (Json.str s), t => s == t
  | _, _ => false

/-- The `Seed:` text printed for one result: `result.get('seed', 'N/A')`. -/
def seedText (kvs : List (String × Json)) : String :=
  match kvs.lookup "seed" with
  | some s => pyStr s
  | none => "N/A"

/-- The loop body of `main` for one entry of `job_result` (source lines
96-107), at enumeration index `idx`, with `clock` counting earlier
`datetime.now()` calls.  Returns the effects of this iteration, the updated
clock, and the exception this iteration raises, if any.  Entries whose `url`
is missing or falsy are skipped wholesale; a 200 download writes the bytes to
a timestamped file under `outputs/`; a non-200 download is silently skipped;
a non-dict entry or a truthy non-string url raises. -/
def processOne (w : World) (clock idx : Nat) (result : Json) :
    List Effect × Nat × Option PyError :=
  match result with
  | Json.obj kvs =>
    match kvs.lookup "url" with
    | none => ([], clock, none)
    | some u =>
      if truthy u then
        let urlLine := Effect.print ("Image URL: " ++ pyStr u)
        let seedLine := Effect.print ("Seed: " ++ seedText kvs)
        match u with
        | Json.str url =>
          match w.getRaw url with
          | RawResp.transportError =>
              ([urlLine, seedLine, Effect.httpGetRaw url], clock, some PyError.transport)
          | RawResp.ok status content =>
            if status = 200 then
              let filename := "outputs/image_" ++ w.now clock ++ "_" ++ toString idx ++ ".png"
              ([urlLine, seedLine, Effect.httpGetRaw url,
                Effect.writeFile filename content,
                Effect.print ("Image saved to " ++ filename)], clock + 1, none)
            else ([urlLine, seedLine, Effect.httpGetRaw url], clock, none)
        | _ => ([urlLine, seedLine], clock, some PyError.typeError)
      else ([], clock, none)
  | _ => ([], clock, some PyError.attrError)

/-- `for idx, result in enumerate(job_status["job_result"]):` over a JSON
array, accumulating effects in order; an exception aborts the loop. -/
def processResults (w : World) (clock idx : Nat) : List Json → List Effect × Option PyError
  | [] => ([], none)
  | r :: rest =>
    match processOne w clock idx r with
    | (es, _, some err) => (es, some err)
    | (es, c, none) =>
      let tail := processResults w c (idx + 1) rest
      (es ++ tail.1, tail.2)

/-- Iteration over a truthy `job_status["job_result"]` value.  A JSON array
iterates its elements; iterating a (nonempty) string or dict yields strings,
so the first `result.get("url")` raises `AttributeError`; truthy numbers and
`True` are not iterable. -/
def iterResults (w : World) : Json → List Effect × Option PyError
  | Json.arr xs => processResults w 0 0 xs
  | Json.str _ => ([], some PyError.attrError)
  | Json.obj _ => ([], some PyError.attrError)
  | _ => ([], some PyError.typeError)

def mainPrompt : String := "A beautiful landscape with mountains, a lake, and a sunset"

def mainNegativePrompt : String := "ugly, blurry, low quality"

/-- The JSON body `main`'s single `text_to_image` call posts. -/
def mainBody : Json := requestParams mainPrompt mainNegativePrompt ["Fooocus V2"] true

def sendLine : Effect :=
  Effect.print ("Sending text-to-image request with prompt: '" ++ mainPrompt ++ "'")

/-- The two hint lines printed when the job is still `PENDING` or `RUNNING`
(source lines 90-92); empty otherwise. -/
def stageHints (job_id_s : String) (stage : Option Json) : List Effect :=
  if pyEqStr stage "PENDING" || pyEqStr stage "RUNNING" then
    [Effect.print "Job is still processing. Check status later with:",
     Effect.print ("curl " ++ API_URL ++ "/v1/generation/query-job?job_id=" ++ job_id_s)]
  else []

/-- `main()` (source lines 68-107): the full effect trace of one run, plus
the exception that escapes it, if any. -/
def pyMain (w : World) : List Effect × Option PyError :=
  let sub := text_to_image w mainPrompt mainNegativePrompt
  let e1 := sendLine :: sub.1
  match sub.2 with
  | Except.error err => (e1, some err)
  | Except.ok response =>
    let e2 := e1 ++ [Effect.print (pyJsonDumps response)]
    match pyGet response "job_id" with
    | Except.error err => (e2, some err)
    | Except.ok none => (e2, none)
    | Except.ok (some jid) =>
      if truthy jid then
        let e3 := e2 ++ [Effect.print ("\nJob ID: " ++ pyStr jid),
                         Effect.print "Checking job status...",
                         Effect.makeDirs "outputs" true]
        let poll := check_job_status w (pyStr jid)
        let e4 := e3 ++ poll.1
        match poll.2 with
        | Except.error err => (e4, some err)
        | Except.ok job_status =>
          let e5 := e4 ++ [Effect.print (pyJsonDumps job_status)]
          match pyGet job_status "job_stage" with
          | Except.error err => (e5, some err)
          | Except.ok stage =>
            let e6 := e5 ++ stageHints (pyStr jid) stage
            match pyGet job_status "job_result" with
            | Except.error err => (e6, some err)
            | Except.ok none => (e6, none)
            | Except.ok (some jr) =>
              if truthy jr then
                let loop := iterResults w jr
                (e6 ++ loop.1, loop.2)
              else (e6, none)
      else (e2, none)

/-- Does a JSON value have dict entry `k` with a truthy value? -/
def hasTruthyKey (j : Json) (k : String) : Bool :=
  match j with
  | Json.obj kvs =>
    match kvs.lookup k with
    | some v => truthy v
    | none => false
  | _ => false

/-- True on the poll effect (`check_job_status`'s GET), false elsewhere. -/
def isPoll : Effect → Bool
  | Effect.httpGet _ _ => true
  | _ => false

/-- True on a file-write effect. -/
def isWrite : Effect → Bool
  | Effect.writeFile _ _ => true
  | _ => false

/-- True on a directory-creation effect. -/
def isMkdir : Effect → Bool
  | Effect.makeDirs _ _ => true
  | _ => false

def jsonKeys : Json → List String
  | Json.obj kvs => kvs.map Prod.fst
  | _ => []

def jsonLookup (j : Json) (k : String) : Option Json :=
  match j with
  | Json.obj kvs => kvs.lookup k
  | _ => none

/-! Concrete worlds used to exercise the model on closed runs. -/

def exampleSubmitJson : Json := Json.obj [("job_id", Json.str "abc123")]

def exampleResultJson : Json :=
  Json.obj [("url", Json.str "http://127.0.0.1:8888/files/1.png"), ("seed", Json.num 42)]

def exampleStatusJson : Json :=
  Json.obj [("job_id", Json.str "abc123"), ("job_stage", Json.str "SUCCESS"),
            ("job_result", Json.arr [exampleResultJson])]

/-- A world where the submit succeeds, the job is done, and the one image
downloads with status 200. -/
def exampleWorld : World where
  post := fun _ _ => JsonResp.ok 200 exampleSubmitJson
  get := fun _ _ => JsonResp.ok 200 exampleStatusJson
  getRaw := fun _ => RawResp.ok 200 [137, 80, 78, 71]
  now := fun _ => "20251012_120000"

/-- A world where every HTTP request fails at the transport level. -/
def failWorld : World where
  post := fun _ _ => JsonResp.transportError
  get := fun _ _ => JsonResp.transportError
  getRaw := fun _ => RawResp.transportError
  now := fun _ => "t"

/-- A world like `exampleWorld` but whose image download answers 404. -/
def notFoundWorld : World where
  post := fun _ _ => JsonResp.ok 200 exampleSubmitJson
  get := fun _ _ => JsonResp.ok 200 exampleStatusJson
  getRaw := fun _ => RawResp.ok 404 []
  now := fun _ => "20251012_120000"

/-- A world whose submit response carries no `job_id`. -/
def noJobWorld : World where
  post := fun _ _ => JsonResp.ok 200 (Json.obj [("detail", Json.str "queue full")])
  get := fun _ _ => JsonResp.ok 200 Json.null
  getRaw := fun _ => RawResp.ok 200 []
  now := fun _ => "t"

/-- The submit-body key list asserted by the specification, with
`aspect_ratio` as it names the resolution field. -/
def claimedSubmitKeys : List String :=
  ["performance_selection", "aspect_ratio", "image_number", "image_seed",
   "sharpness", "guidance_scale", "save_extension",
   "prompt", "negative_prompt", "style_selections", "async_process"]

/-- C1 (counterexample): the body `text_to_image` posts does not contain every
key the claim lists: it has no `aspect_ratio` key (the resolution is sent
under `aspect_ratios_selection`). -/
theorem C1_counterexample :
    ¬ ∀ k ∈ claimedSubmitKeys, k ∈ jsonKeys (requestParams "test" "" ["Fooocus V2"] true) := by
  decide

/-- C1 (amended): for every prompt, negative_prompt, style_selections and
async_process, `text_to_image` issues exactly one POST whose JSON body has
exactly the keys prompt, negative_prompt, style_selections,
performance_selection, aspect_ratios_selection, image_number=1, image_seed=-1,
sharpness=2.0, guidance_scale=4.0, async_process and save_extension="png",
and no others; and it returns the parsed JSON of the response. -/
theorem C1_submit_sends_exact_body (w : World) (p np : String)
    (ss : Option (List String)) (ap : Bool) :
    (text_to_image w p np ss ap).1 =
      [Effect.httpPost textToImageUrl (Json.obj
        [("prompt", Json.str p),
         ("negative_prompt", Json.str np),
         ("style_selections", Json.arr ((ss.getD ["Fooocus V2"]).map Json.str)),
         ("performance_selection", Json.str "Quality"),
         ("aspect_ratios_selection", Json.str "1152*896"),
         ("image_number", Json.num 1),
         ("image_seed", Json.num (-1)),
         ("sharpness", Json.num 2),
         ("guidance_scale", Json.num 4),
         ("async_process", Json.bool ap),
         ("save_extension", Json.str "png")])] ∧
    (∀ st j, w.post textToImageUrl (requestParams p np (ss.getD ["Fooocus V2"]) ap) =
        JsonResp.ok st j → (text_to_image w p np ss ap).2 = Except.ok j) := by
  refine ⟨rfl, ?_⟩
  intro st j h
  simp [text_to_image, h]

/-- Witness for C1: in `exampleWorld`, the submit call returns the world's
parsed JSON response. -/
theorem C1_submit_witness :
    (text_to_image exampleWorld "p" "" none true).2 = Except.ok exampleSubmitJson :=
  (C1_submit_sends_exact_body exampleWorld "p" "" none true).2 200 exampleSubmitJson rfl

/-- C4: for every job_id, `check_job_status` issues exactly one GET to the
query-job endpoint with that job_id as its sole query parameter, and returns
the decoded JSON of the response unchanged. -/
theorem C4_poll_single_get (w : World) (job_id : String) :
    (check_job_status w job_id).1 = [Effect.httpGet queryJobUrl [("job_id", job_id)]] ∧
    (∀ st j, w.get queryJobUrl [("job_id", job_id)] = JsonResp.ok st j →
      (check_job_status w job_id).2 = Except.ok j) := by
  refine ⟨rfl, ?_⟩
  intro st j h
  simp [check_job_status, h]

/-- Witness for C4: in `exampleWorld`, polling returns the world's status
JSON unchanged. -/
theorem C4_poll_witness :
    (check_job_status exampleWorld "abc123").2 = Except.ok exampleStatusJson :=
  (C4_poll_single_get exampleWorld "abc123").2 200 exampleStatusJson rfl

/-- C6: when `style_selections` is not provided (Python `None`), the request
is built with the default selection `["Fooocus V2"]`. -/
theorem C6_default_style_selection (w : World) (p np : String) (ap : Bool) :
    (text_to_image w p np none ap).1 =
      [Effect.httpPost textToImageUrl (requestParams p np ["Fooocus V2"] ap)] ∧
    jsonLookup (requestParams p np ["Fooocus V2"] ap) "style_selections" =
      some (Json.arr [Json.str "Fooocus V2"]) :=
  ⟨rfl, rfl⟩

/-- C7: `text_to_image` and `check_job_status` catch nothing and retry
nothing: each performs exactly one HTTP request and no print, a transport
failure surfaces as the transport exception, and an undecodable body as the
JSON-decode exception. -/
theorem C7_errors_propagate (w : World) (p np : String) (ss : Option (List String))
    (ap : Bool) (job_id : String) :
    ((text_to_image w p np ss ap).1 =
        [Effect.httpPost textToImageUrl (requestParams p np (ss.getD ["Fooocus V2"]) ap)]) ∧
    (w.post textToImageUrl (requestParams p np (ss.getD ["Fooocus V2"]) ap) =
        JsonResp.transportError →
      (text_to_image w p np ss ap).2 = Except.error PyError.transport) ∧
    (∀ st, w.post textToImageUrl (requestParams p np (ss.getD ["Fooocus V2"]) ap) =
        JsonResp.badJson st →
      (text_to_image w p np ss ap).2 = Except.error PyError.jsonDecode) ∧
    ((check_job_status w job_id).1 = [Effect.httpGet queryJobUrl [("job_id", job_id)]]) ∧
    (w.get queryJobUrl [("job_id", job_id)] = JsonResp.transportError →
      (check_job_status w job_id).2 = Except.error PyError.transport) ∧
    (∀ st, w.get queryJobUrl [("job_id", job_id)] = JsonResp.badJson st →
      (check_job_status w job_id).2 = Except.error PyError.jsonDecode) := by
  refine ⟨rfl, ?_, ?_, rfl, ?_, ?_⟩
  · intro h; simp [text_to_image, h]
  · intro st h; simp [text_to_image, h]
  · intro h; simp [check_job_status, h]
  · intro st h; simp [check_job_status, h]

/-- Witness for C7: in `failWorld` both functions surface the transport
failure. -/
theorem C7_errors_witness :
    (text_to_image failWorld "p" "" none true).2 = Except.error PyError.transport ∧
    (check_job_status failWorld "j").2 = Except.error PyError.transport :=
  ⟨(C7_errors_propagate failWorld "p" "" none true "j").2.1 rfl,
   (C7_errors_propagate failWorld "p" "" none true "j").2.2.2.2.1 rfl⟩

/-- C2: for every result entry carrying a (nonempty) url string whose GET
answers 200 with body `content`, the loop iteration performs exactly this:
prints the URL and seed, GETs the url, writes exactly one file, named
`outputs/image_<timestamp>_<idx>.png` with the enumeration index `idx` in it,
whose bytes are exactly `content` — and the file sits under `outputs/`. -/
theorem C2_download_writes_file (w : World) (clock idx : Nat)
    (kvs : List (String × Json)) (url : String) (content : List Nat)
    (hurl : kvs.lookup "url" = some (Json.str url))
    (hne : url ≠ "")
    (hresp : w.getRaw url = RawResp.ok 200 content) :
    processOne w clock idx (Json.obj kvs) =
      ([Effect.print ("Image URL: " ++ url),
        Effect.print ("Seed: " ++ seedText kvs),
        Effect.httpGetRaw url,
        Effect.writeFile ("outputs/image_" ++ w.now clock ++ "_" ++ toString idx ++ ".png")
          content,
        Effect.print ("Image saved to " ++
          ("outputs/image_" ++ w.now clock ++ "_" ++ toString idx ++ ".png"))],
       clock + 1, none) ∧
    (processOne w clock idx (Json.obj kvs)).1.countP isWrite = 1 ∧
    (∃ suffix, "outputs/image_" ++ w.now clock ++ "_" ++ toString idx ++ ".png" =
      "outputs/" ++ suffix) := by
  have ht : truthy (Json.str url) = true := by
    rw [truthy, Bool.not_eq_true', ← Bool.not_eq_true, String.isEmpty_iff]
    exact hne
  refine ⟨?_, ?_, ?_⟩
  · simp [processOne, hurl, ht, hresp, pyStr]
  · simp [processOne, hurl, ht, hresp, isWrite, List.countP_cons]
  · exact ⟨"image_" ++ w.now clock ++ "_" ++ toString idx ++ ".png", by
      simp only [← String.append_assoc]
      rfl⟩

/-- Witness for C2: the example download writes `[137, 80, 78, 71]` to
`outputs/image_20251012_120000_0.png`. -/
theorem C2_download_witness :
    processOne exampleWorld 0 0 exampleResultJson =
      ([Effect.print "Image URL: http://127.0.0.1:8888/files/1.png",
        Effect.print "Seed: 42",
        Effect.httpGetRaw "http://127.0.0.1:8888/files/1.png",
        Effect.writeFile "outputs/image_20251012_120000_0.png" [137, 80, 78, 71],
        Effect.print "Image saved to outputs/image_20251012_120000_0.png"], 1, none) :=
  (C2_download_writes_file exampleWorld 0 0
    [("url", Json.str "http://127.0.0.1:8888/files/1.png"), ("seed", Json.num 42)]
    "http://127.0.0.1:8888/files/1.png" [137, 80, 78, 71]
    rfl (by decide) rfl).1

/-- C3: for every result entry carrying a (nonempty) url string whose GET
answers a status other than 200, the iteration prints the URL and seed and
GETs the url but writes no file and raises nothing, and the loop continues
with the next entry. -/
theorem C3_non200_skips_silently (w : World) (clock idx : Nat)
    (kvs : List (String × Json)) (url : String) (st : Nat) (content : List Nat)
    (rest : List Json)
    (hurl : kvs.lookup "url" = some (Json.str url))
    (hne : url ≠ "")
    (hresp : w.getRaw url = RawResp.ok st content)
    (hst : st ≠ 200) :
    processOne w clock idx (Json.obj kvs) =
      ([Effect.print ("Image URL: " ++ url),
        Effect.print ("Seed: " ++ seedText kvs),
        Effect.httpGetRaw url], clock, none) ∧
    (processOne w clock idx (Json.obj kvs)).1.countP isWrite = 0 ∧
    processResults w clock idx (Json.obj kvs :: rest) =
      ([Effect.print ("Image URL: " ++ url),
        Effect.print ("Seed: " ++ seedText kvs),
        Effect.httpGetRaw url] ++ (processResults w clock (idx + 1) rest).1,
       (processResults w clock (idx + 1) rest).2) := by
  have ht : truthy (Json.str url) = true := by
    rw [truthy, Bool.not_eq_true', ← Bool.not_eq_true, String.isEmpty_iff]
    exact hne
  have h1 : processOne w clock idx (Json.obj kvs) =
      ([Effect.print ("Image URL: " ++ url),
        Effect.print ("Seed: " ++ seedText kvs),
        Effect.httpGetRaw url], clock, none) := by
    simp [processOne, hurl, ht, hresp, hst, pyStr]
  refine ⟨h1, ?_, ?_⟩
  · rw [h1]; simp [isWrite, List.countP_cons]
  · simp [processResults, h1]

/-- Witness for C3: in `notFoundWorld` (404 download) the iteration performs
the two prints and the GET, writes nothing, raises nothing, and the loop
ends normally. -/
theorem C3_non200_witness :
    processResults notFoundWorld 0 0 [exampleResultJson] =
      ([Effect.print "Image URL: http://127.0.0.1:8888/files/1.png",
        Effect.print "Seed: 42",
        Effect.httpGetRaw "http://127.0.0.1:8888/files/1.png"], none) :=
  (C3_non200_skips_silently notFoundWorld 0 0
    [("url", Json.str "http://127.0.0.1:8888/files/1.png"), ("seed", Json.num 42)]
    "http://127.0.0.1:8888/files/1.png" 404 [] []
    rfl (by decide) rfl (by decide)).2.2

/-- C8: a result entry whose `url` field is absent or falsy is skipped
entirely: no print, no GET, no file, no exception, and iteration continues
with the next entry at the next index. -/
theorem C8_urlless_entry_skipped (w : World) (clock idx : Nat)
    (kvs : List (String × Json)) (rest : List Json)
    (h : kvs.lookup "url" = none ∨
      ∃ u, kvs.lookup "url" = some u ∧ truthy u = false) :
    processOne w clock idx (Json.obj kvs) = ([], clock, none) ∧
    processResults w clock idx (Json.obj kvs :: rest) =
      processResults w clock (idx + 1) rest := by
  have h1 : processOne w clock idx (Json.obj kvs) = ([], clock, none) := by
    rcases h with h | ⟨u, hu, hf⟩
    · simp [processOne, h]
    · simp [processOne, hu, hf]
  refine ⟨h1, ?_⟩
  simp [processResults, h1]

/-- Witness for C8: an entry with a falsy (empty-string) url is skipped and
the following entry is still processed. -/
theorem C8_urlless_witness :
    processResults exampleWorld 0 0 [Json.obj [("url", Json.str "")], exampleResultJson] =
      processResults exampleWorld 0 1 [exampleResultJson] :=
  (C8_urlless_entry_skipped exampleWorld 0 0 [("url", Json.str "")] [exampleResultJson]
    (Or.inr ⟨Json.str "", rfl, by decide⟩)).2

/-! Helper lemmas: the download loop and the stage hints contribute no poll
(`httpGet`) and no `makeDirs` effects, so the main flow's counts of those
effects are decided entirely by the branch structure of `pyMain`. -/

theorem processOne_countP_nonloop (p : Effect → Bool)
    (hpr : ∀ s, p (Effect.print s) = false)
    (hraw : ∀ u, p (Effect.httpGetRaw u) = false)
    (hw : ∀ f c, p (Effect.writeFile f c) = false)
    (w : World) (clock idx : Nat) (r : Json) :
    (processOne w clock idx r).1.countP p = 0 := by
  unfold processOne
  repeat' split
  all_goals simp [List.countP_cons, hpr, hraw, hw]

theorem processResults_countP_nonloop (p : Effect → Bool)
    (hpr : ∀ s, p (Effect.print s) = false)
    (hraw : ∀ u, p (Effect.httpGetRaw u) = false)
    (hw : ∀ f c, p (Effect.writeFile f c) = false)
    (w : World) (xs : List Json) :
    ∀ clock idx, (processResults w clock idx xs).1.countP p = 0 := by
  induction xs with
  | nil => intro clock idx; simp [processResults]
  | cons r rest ih =>
    intro clock idx
    rcases hpo : processOne w clock idx r with ⟨es, c, err⟩
    have h1 : es.countP p = 0 := by
      have h2 := processOne_countP_nonloop p hpr hraw hw w clock idx r
      rw [hpo] at h2
      exact h2
    rcases err with _ | err <;>
      simp [processResults, hpo, List.countP_append, h1, ih]

theorem iterResults_countP_nonloop (p : Effect → Bool)
    (hpr : ∀ s, p (Effect.print s) = false)
    (hraw : ∀ u, p (Effect.httpGetRaw u) = false)
    (hw : ∀ f c, p (Effect.writeFile f c) = false)
    (w : World) (j : Json) :
    (iterResults w j).1.countP p = 0 := by
  cases j <;> simp [iterResults, processResults_countP_nonloop p hpr hraw hw]

theorem stageHints_countP_nonprint (p : Effect → Bool)
    (hpr : ∀ s, p (Effect.print s) = false)
    (a : String) (st : Option Json) :
    (stageHints a st).countP p = 0 := by
  unfold stageHints
  split <;> simp [List.countP_cons, hpr]

/-- How many poll requests a run performs: one exactly when the submit
response decodes and carries a truthy `job_id`, zero otherwise. -/
theorem pyMain_poll_count (w : World) :
    (pyMain w).1.countP isPoll =
      (match w.post textToImageUrl mainBody with
       | JsonResp.ok _ resp => if hasTruthyKey resp "job_id" then 1 else 0
       | _ => 0) := by
  have hpr : ∀ s, isPoll (Effect.print s) = false := fun _ => rfl
  have hraw : ∀ u, isPoll (Effect.httpGetRaw u) = false := fun _ => rfl
  have hw : ∀ f c, isPoll (Effect.writeFile f c) = false := fun _ _ => rfl
  rcases hp : w.post textToImageUrl mainBody with _ | st | ⟨st, resp⟩ <;>
    simp only [mainBody] at hp <;>
    simp only [pyMain, text_to_image, check_job_status, Option.getD_none, sendLine, hp]
  · simp [isPoll]
  · simp [isPoll]
  · rcases resp with _ | b | q | s | xs | kvs
    case obj =>
      rcases hjl : List.lookup "job_id" kvs with _ | jid
      · simp [pyGet, hjl, hasTruthyKey, isPoll]
      · cases ht : truthy jid
        · simp [pyGet, hjl, ht, hasTruthyKey, isPoll]
        · rcases hg : w.get queryJobUrl [("job_id", pyStr jid)] with _ | st2 | ⟨st2, js⟩ <;>
            simp only [pyGet, hjl, ht, hg, if_true]
          · simp [hasTruthyKey, hjl, ht, isPoll, List.countP_cons]
          · simp [hasTruthyKey, hjl, ht, isPoll, List.countP_cons]
          · rcases js with _ | b2 | q2 | s2 | xs2 | kvs2
            case obj =>
              rcases hres : List.lookup "job_result" kvs2 with _ | jr
              · simp [pyGet, hres, hasTruthyKey, hjl, ht, isPoll, List.countP_cons,
                  List.countP_append, stageHints_countP_nonprint isPoll hpr]
              · simp only [pyGet, hres]
                split <;>
                  simp [hasTruthyKey, hjl, ht, isPoll, List.countP_cons, List.countP_append,
                    stageHints_countP_nonprint isPoll hpr,
                    iterResults_countP_nonloop isPoll hpr hraw hw]
            all_goals
              simp [pyGet, hasTruthyKey, hjl, ht, isPoll, List.countP_cons, List.countP_append]
    all_goals simp [pyGet, hasTruthyKey, isPoll, List.countP_cons]

/-- How many `makedirs` calls a run performs: one exactly when the submit
response decodes and carries a truthy `job_id`, zero otherwise. -/
theorem pyMain_mkdir_count (w : World) :
    (pyMain w).1.countP isMkdir =
      (match w.post textToImageUrl mainBody with
       | JsonResp.ok _ resp => if hasTruthyKey resp "job_id" then 1 else 0
       | _ => 0) := by
  have hpr : ∀ s, isMkdir (Effect.print s) = false := fun _ => rfl
  have hraw : ∀ u, isMkdir (Effect.httpGetRaw u) = false := fun _ => rfl
  have hw : ∀ f c, isMkdir (Effect.writeFile f c) = false := fun _ _ => rfl
  rcases hp : w.post textToImageUrl mainBody with _ | st | ⟨st, resp⟩ <;>
    simp only [mainBody] at hp <;>
    simp only [pyMain, text_to_image, check_job_status, Option.getD_none, sendLine, hp]
  · simp [isMkdir]
  · simp [isMkdir]
  · rcases resp with _ | b | q | s | xs | kvs
    case obj =>
      rcases hjl : List.lookup "job_id" kvs with _ | jid
      · simp [pyGet, hjl, hasTruthyKey, isMkdir]
      · cases ht : truthy jid
        · simp [pyGet, hjl, ht, hasTruthyKey, isMkdir]
        · rcases hg : w.get queryJobUrl [("job_id", pyStr jid)] with _ | st2 | ⟨st2, js⟩ <;>
            simp only [pyGet, hjl, ht, hg, if_true]
          · simp [hasTruthyKey, hjl, ht, isMkdir, List.countP_cons]
          · simp [hasTruthyKey, hjl, ht, isMkdir, List.countP_cons]
          · rcases js with _ | b2 | q2 | s2 | xs2 | kvs2
            case obj =>
              rcases hres : List.lookup "job_result" kvs2 with _ | jr
              · simp [pyGet, hres, hasTruthyKey, hjl, ht, isMkdir, List.countP_cons,
                  List.countP_append, stageHints_countP_nonprint isMkdir hpr]
              · simp only [pyGet, hres]
                split <;>
                  simp [hasTruthyKey, hjl, ht, isMkdir, List.countP_cons, List.countP_append,
                    stageHints_countP_nonprint isMkdir hpr,
                    iterResults_countP_nonloop isMkdir hpr hraw hw]
            all_goals
              simp [pyGet, hasTruthyKey, hjl, ht, isMkdir, List.countP_cons, List.countP_append]
    all_goals simp [pyGet, hasTruthyKey, isMkdir, List.countP_cons]

/-- Every run opens with the banner print followed by the submit POST. -/
theorem pyMain_starts_with_submit (w : World) :
    ∃ rest, (pyMain w).1 = sendLine :: Effect.httpPost textToImageUrl mainBody :: rest := by
  simp only [pyMain, text_to_image, check_job_status, Option.getD_none]
  repeat' split
  all_goals exact ⟨_, rfl⟩

/-- On a truthy `job_id`, the run's trace begins with the fixed seven-effect
prefix ending in `makeDirs` then the poll GET, whatever the poll returns. -/
theorem pyMain_poll_prefix (w : World) (st : Nat) (kvs : List (String × Json)) (jid : Json)
    (hpost : w.post textToImageUrl mainBody = JsonResp.ok st (Json.obj kvs))
    (hjid : kvs.lookup "job_id" = some jid)
    (ht : truthy jid = true) :
    ∃ rest, (pyMain w).1 =
      [sendLine, Effect.httpPost textToImageUrl mainBody,
       Effect.print (pyJsonDumps (Json.obj kvs)),
       Effect.print ("\nJob ID: " ++ pyStr jid),
       Effect.print "Checking job status...",
       Effect.makeDirs "outputs" true,
       Effect.httpGet queryJobUrl [("job_id", pyStr jid)]] ++ rest := by
  have hpost2 : w.post textToImageUrl
      (requestParams mainPrompt mainNegativePrompt ["Fooocus V2"] true) =
      JsonResp.ok st (Json.obj kvs) := hpost
  simp only [pyMain, text_to_image, check_job_status, Option.getD_none, hpost2, pyGet, hjid,
    ht, if_true]
  repeat' split
  all_goals exact ⟨_, rfl⟩

/-- The full trace of a run whose submit and poll both decode to dicts and
whose `job_id` is truthy. -/
theorem pyMain_success_trace (w : World) (st : Nat) (kvs1 : List (String × Json)) (jid : Json)
    (st2 : Nat) (kvs2 : List (String × Json))
    (hpost : w.post textToImageUrl mainBody = JsonResp.ok st (Json.obj kvs1))
    (hjid : kvs1.lookup "job_id" = some jid)
    (ht : truthy jid = true)
    (hget : w.get queryJobUrl [("job_id", pyStr jid)] = JsonResp.ok st2 (Json.obj kvs2)) :
    pyMain w =
      ([sendLine,
        Effect.httpPost textToImageUrl mainBody,
        Effect.print (pyJsonDumps (Json.obj kvs1)),
        Effect.print ("\nJob ID: " ++ pyStr jid),
        Effect.print "Checking job status...",
        Effect.makeDirs "outputs" true,
        Effect.httpGet queryJobUrl [("job_id", pyStr jid)],
        Effect.print (pyJsonDumps (Json.obj kvs2))]
        ++ stageHints (pyStr jid) (kvs2.lookup "job_stage")
        ++ (match kvs2.lookup "job_result" with
            | some jr => if truthy jr then (iterResults w jr).1 else []
            | none => []),
       (match kvs2.lookup "job_result" with
        | some jr => if truthy jr then (iterResults w jr).2 else none
        | none => none)) := by
  have hpost2 : w.post textToImageUrl
      (requestParams mainPrompt mainNegativePrompt ["Fooocus V2"] true) =
      JsonResp.ok st (Json.obj kvs1) := hpost
  simp only [pyMain, text_to_image, check_job_status, Option.getD_none, hpost2, pyGet, hjid,
    ht, if_true, hget]
  rcases hres : kvs2.lookup "job_result" with _ | jr
  · simp [hres, mainBody]
  · simp only [hres]
    split <;> simp [mainBody]

/-- C5: every run starts with the banner print and the single submit POST;
the poll endpoint is hit at most once, and exactly once iff the submit
response carries a truthy job_id; and on the poll path the whole run is the
exact sequence submit POST, response dump, job-id prints, `makeDirs`, poll
GET, status dump, the PENDING/RUNNING curl hint (when applicable), then the
in-order iteration of job_result. -/
theorem C5_main_control_flow (w : World) :
    ((pyMain w).1.take 2 = [sendLine, Effect.httpPost textToImageUrl mainBody]) ∧
    ((pyMain w).1.countP isPoll ≤ 1) ∧
    (((pyMain w).1.countP isPoll = 1) ↔
      ∃ st resp, w.post textToImageUrl mainBody = JsonResp.ok st resp ∧
        hasTruthyKey resp "job_id" = true) ∧
    (∀ st kvs1 jid st2 kvs2,
      w.post textToImageUrl mainBody = JsonResp.ok st (Json.obj kvs1) →
      List.lookup "job_id" kvs1 = some jid →
      truthy jid = true →
      w.get queryJobUrl [("job_id", pyStr jid)] = JsonResp.ok st2 (Json.obj kvs2) →
      pyMain w =
        ([sendLine,
          Effect.httpPost textToImageUrl mainBody,
          Effect.print (pyJsonDumps (Json.obj kvs1)),
          Effect.print ("\nJob ID: " ++ pyStr jid),
          Effect.print "Checking job status...",
          Effect.makeDirs "outputs" true,
          Effect.httpGet queryJobUrl [("job_id", pyStr jid)],
          Effect.print (pyJsonDumps (Json.obj kvs2))]
          ++ stageHints (pyStr jid) (kvs2.lookup "job_stage")
          ++ (match kvs2.lookup "job_result" with
              | some jr => if truthy jr then (iterResults w jr).1 else []
              | none => []),
         (match kvs2.lookup "job_result" with
          | some jr => if truthy jr then (iterResults w jr).2 else none
          | none => none))) := by
  refine ⟨?_, ?_, ?_, ?_⟩
  · obtain ⟨rest, hr⟩ := pyMain_starts_with_submit w
    rw [hr]
    rfl
  · rw [pyMain_poll_count]
    rcases w.post textToImageUrl mainBody with _ | st | ⟨st, resp⟩
    · simp
    · simp
    · cases h : hasTruthyKey resp "job_id" <;> simp [h]
  · rw [pyMain_poll_count]
    rcases hp : w.post textToImageUrl mainBody with _ | st | ⟨st, resp⟩ <;> simp [hp]
    cases htk : hasTruthyKey resp "job_id" <;> simp [htk]
    exact ⟨st, resp, ⟨rfl, rfl⟩, htk⟩
  · intro st kvs1 jid st2 kvs2 hpost hjid ht hget
    exact pyMain_success_trace w st kvs1 jid st2 kvs2 hpost hjid ht hget

/-- Witness for C5: the full trace of the run in `exampleWorld`, evaluated:
submit, dump, job-id prints, mkdir, one poll, status dump, then the single
download. -/
theorem C5_main_witness :
    pyMain exampleWorld =
      ([sendLine,
        Effect.httpPost textToImageUrl mainBody,
        Effect.print (pyJsonDumps exampleSubmitJson),
        Effect.print "\nJob ID: abc123",
        Effect.print "Checking job status...",
        Effect.makeDirs "outputs" true,
        Effect.httpGet queryJobUrl [("job_id", "abc123")],
        Effect.print (pyJsonDumps exampleStatusJson),
        Effect.print "Image URL: http://127.0.0.1:8888/files/1.png",
        Effect.print "Seed: 42",
        Effect.httpGetRaw "http://127.0.0.1:8888/files/1.png",
        Effect.writeFile "outputs/image_20251012_120000_0.png" [137, 80, 78, 71],
        Effect.print "Image saved to outputs/image_20251012_120000_0.png"], none) :=
  (C5_main_control_flow exampleWorld).2.2.2 200 [("job_id", Json.str "abc123")]
    (Json.str "abc123") 200
    [("job_id", Json.str "abc123"), ("job_stage", Json.str "SUCCESS"),
     ("job_result", Json.arr [exampleResultJson])]
    rfl rfl rfl rfl

/-- C9: whenever the submit response decodes and carries a truthy job_id, the
run creates `outputs` (with `exist_ok`) exactly once, and does so before the
poll GET is issued — whatever the poll later returns; when the response
carries no (truthy) job_id, the directory is never created. -/
theorem C9_outputs_dir_before_poll (w : World) (st : Nat) (resp : Json)
    (hpost : w.post textToImageUrl mainBody = JsonResp.ok st resp) :
    (∀ kvs jid, resp = Json.obj kvs → List.lookup "job_id" kvs = some jid →
        truthy jid = true →
      (pyMain w).1.countP isMkdir = 1 ∧
      ∃ rest, (pyMain w).1 =
        [sendLine, Effect.httpPost textToImageUrl mainBody,
         Effect.print (pyJsonDumps (Json.obj kvs)),
         Effect.print ("\nJob ID: " ++ pyStr jid),
         Effect.print "Checking job status...",
         Effect.makeDirs "outputs" true,
         Effect.httpGet queryJobUrl [("job_id", pyStr jid)]] ++ rest) ∧
    (hasTruthyKey resp "job_id" = false → (pyMain w).1.countP isMkdir = 0) := by
  constructor
  · rintro kvs jid rfl hjid ht
    refine ⟨?_, pyMain_poll_prefix w st kvs jid hpost hjid ht⟩
    rw [pyMain_mkdir_count, hpost]
    simp [hasTruthyKey, hjid, ht]
  · intro hfalse
    rw [pyMain_mkdir_count, hpost]
    simp [hfalse]

/-- Witness for C9: `exampleWorld`'s run creates `outputs` once;
`noJobWorld`'s run (no job_id in the response) never creates it. -/
theorem C9_outputs_witness :
    (pyMain exampleWorld).1.countP isMkdir = 1 ∧
    (pyMain noJobWorld).1.countP isMkdir = 0 :=
  ⟨((C9_outputs_dir_before_poll exampleWorld 200 exampleSubmitJson rfl).1
      [("job_id", Json.str "abc123")] (Json.str "abc123") rfl rfl rfl).1,
   (C9_outputs_dir_before_poll noJobWorld 200
      (Json.obj [("detail", Json.str "queue full")]) rfl).2 rfl⟩

/-- C10: a call to `text_to_image` that omits `style_selections` and
`async_process` is the call with `None` and `True`; the body main posts has
`async_process = true`; and every run of main begins with exactly that
submit. -/
theorem C10_async_defaults_true (w : World) (p np : String) :
    text_to_image w p np = text_to_image w p np none true ∧
    jsonLookup mainBody "async_process" = some (Json.bool true) ∧
    (∃ rest, (pyMain w).1 = sendLine :: Effect.httpPost textToImageUrl mainBody :: rest) :=
  ⟨rfl, rfl, pyMain_starts_with_submit w⟩

end LocalViz
